import Mathlib

/-!
Verification of the SwiftyKvLang generated-sample patterns and the
widget-registry extraction tooling.

The repository contains, under KvToPyClass, Python classes produced by the
kv-to-class compiler.  Each compiled unit (per the design, a compiled unit is
a constructor routine, an internal ordered list of subscription records named
_bindings, and a teardown routine __del__) is embedded below as a list of
statements transcribed one-for-one from the generated source.  The teardown
loop, the expression language used by reactive assignments, and the
registry extractor (extract_widget_info.py) are embedded as executable
functions so that every property can be settled by evaluation or induction.
-/

namespace KvGen

/-- Objects that own properties or receive calls in the generated code:
the enclosing widget (self), the running app singleton, a constructed
local widget referred to by its variable name, and the callback parameter
named instance inside a generated lambda. -/
inductive Owner
  | selfW
  | app
  | widget (id : String)
  | instVar
deriving DecidableEq

/-- Literal values appearing in the generated code. -/
inductive Value
  | num (q : ℚ)
  | str (s : String)
  | boolV (b : Bool)
  | noneV
  | tup2 (a b : Value)
  | tup3 (a b c : Value)
  | tup4 (a b c d : Value)
  | obj (name : String)
deriving DecidableEq

/-- Right-hand-side expressions of property assignments in the generated
code: literals, property references owner.prop, arithmetic, pair and
four-element list literals, and the hasattr fallback pattern
(owner.p if hasattr(owner, p) else default). -/
inductive Expr
  | lit (v : Value)
  | ref (o : Owner) (p : String)
  | add (a b : Expr)
  | sub (a b : Expr)
  | pair (a b : Expr)
  | quad (a b c d : Expr)
  | fallback (o : Owner) (p : String) (dflt : Value)
deriving DecidableEq

/-- The set of (owner, property) pairs an expression reads, in
left-to-right source order. -/
def Expr.deps : Expr → List (Owner × String)
  | .lit _ => []
  | .ref o p => [(o, p)]
  | .add a b => a.deps ++ b.deps
  | .sub a b => a.deps ++ b.deps
  | .pair a b => a.deps ++ b.deps
  | .quad a b c d => a.deps ++ b.deps ++ c.deps ++ d.deps
  | .fallback o p _ => [(o, p)]

/-- Replace references to self by references to the callback parameter
instance; this is the rewriting the compiler applies when it re-emits a
reactive expression inside a generated callback body. -/
def Expr.substSelfToInst : Expr → Expr
  | .lit v => .lit v
  | .ref o p => .ref (if o = Owner.selfW then Owner.instVar else o) p
  | .add a b => .add a.substSelfToInst b.substSelfToInst
  | .sub a b => .sub a.substSelfToInst b.substSelfToInst
  | .pair a b => .pair a.substSelfToInst b.substSelfToInst
  | .quad a b c d =>
      .quad a.substSelfToInst b.substSelfToInst c.substSelfToInst d.substSelfToInst
  | .fallback o p d => .fallback (if o = Owner.selfW then Owner.instVar else o) p d

/-- What a generated lambda callback passes to setattr as the new value of
the target property: a re-emitted expression, the value parameter (the new
value of the triggering property), or the instance parameter (the observed
widget object itself). -/
inductive Applied
  | exprArg (e : Expr)
  | valueArg
  | instanceArg
deriving DecidableEq

/-- The callback argument of a bind call: a setter handle
target.setter(prop), a generated property-update lambda _callback_n of the
form lambda instance, value: setattr(target, prop, ...), or an event
handler lambda calling a method (n is its token number when one is
recorded). -/
inductive Callback
  | setter (target : Owner) (tprop : String)
  | lam (n : Nat) (target : Owner) (tprop : String) (a : Applied)
  | handler (n : Option Nat) (recv : Owner) (method : String)
deriving DecidableEq

/-- The instruction-group containers: canvas.before, canvas, canvas.after. -/
inductive Group
  | before
  | main
  | after
deriving DecidableEq

/-- Statements of a generated constructor body, in source order. -/
inductive Stmt
  | construct (target : Owner) (kind : String) (args : List (String × Expr))
  | assign (target : Owner) (prop : String) (e : Expr)
  | bind (owner : Owner) (prop : String) (cb : Callback)
  | appendB (owner : Owner) (prop : String) (token : Nat)
  | addWidget (parent : Owner) (child : Owner)
  | canvasAdd (g : Group) (target : Owner)
  | canvasAddAnon (g : Group) (kind : String) (args : List (String × Expr))
  | canvasPush (g : Group)
  | canvasPop (g : Group)
  | setId (name : String) (target : Owner)
deriving DecidableEq

/-- A compiled unit: the class name and its constructor statements.  The
teardown of every unit is the same generated loop over _bindings, modelled
separately by delPass. -/
structure CompiledUnit where
  name : String
  stmts : List Stmt
deriving DecidableEq

/-- MyWidget from KvToPyClass/test_binding.py. -/
def myWidgetUnit : CompiledUnit :=
  { name := "MyWidget"
    stmts :=
      [ .construct (.widget "label_7145D272") "Label" [("font_size", .lit (.num 20.0))]
      , .assign (.widget "label_7145D272") "text" (.ref .app "some_prop")
      , .bind .app "some_prop" (.setter (.widget "label_7145D272") "text")
      , .addWidget .selfW (.widget "label_7145D272")
      , .construct (.widget "button_32B27BC4") "Button" [("text", .lit (.str "Click Me"))]
      , .bind (.widget "button_32B27BC4") "on_press" (.handler (some 0) .app "handle_click")
      , .addWidget .selfW (.widget "button_32B27BC4")
      , .appendB (.widget "button_32B27BC4") "on_press" 0 ] }

/-- TestCanvas from KvToPyClass/test_comment_canvas.py. -/
def testCanvasUnit : CompiledUnit :=
  { name := "TestCanvas"
    stmts :=
      [ .construct (.widget "color_B6BF02D5") "Color"
          [("rgb", .lit (.tup3 (.num 1.0) (.num 0.0) (.num 0.0)))]
      , .addWidget .selfW (.widget "color_B6BF02D5")
      , .construct (.widget "rectangle_F3A37B9D") "Rectangle" []
      , .assign (.widget "rectangle_F3A37B9D") "pos" (.ref .selfW "pos")
      , .bind .selfW "pos" (.setter (.widget "rectangle_F3A37B9D") "pos")
      , .assign (.widget "rectangle_F3A37B9D") "size" (.ref .selfW "size")
      , .bind .selfW "size" (.setter (.widget "rectangle_F3A37B9D") "size")
      , .addWidget .selfW (.widget "rectangle_F3A37B9D") ] }

/-- SimpleCanvas from KvToPyClass/test_simple_canvas.py.  Note that the two
generated callbacks pass the instance parameter itself to setattr. -/
def simpleCanvasUnit : CompiledUnit :=
  { name := "SimpleCanvas"
    stmts :=
      [ .canvasAddAnon .main "Color" [("rgb", .lit (.tup3 (.num 1.0) (.num 0.0) (.num 0.0)))]
      , .construct (.widget "_canvas_rectangle_00A310AD") "Rectangle" []
      , .canvasAdd .main (.widget "_canvas_rectangle_00A310AD")
      , .assign (.widget "_canvas_rectangle_00A310AD") "pos" (.ref .selfW "pos")
      , .bind .selfW "pos" (.lam 1 (.widget "_canvas_rectangle_00A310AD") "pos" .instanceArg)
      , .assign (.widget "_canvas_rectangle_00A310AD") "size" (.ref .selfW "size")
      , .bind .selfW "size" (.lam 2 (.widget "_canvas_rectangle_00A310AD") "size" .instanceArg)
      , .appendB .selfW "pos" 1
      , .appendB .selfW "size" 2 ] }

/-- TestBinding from KvToPyClass/test_binding_ellipse.py. -/
def ellipsePosExpr : Expr :=
  .pair (.sub (.ref .selfW "center_x") (.lit (.num 20)))
        (.sub (.ref .selfW "center_y") (.lit (.num 20)))

/-- The position expression re-emitted inside the two TestBinding callbacks,
written over the instance parameter exactly as in the generated source. -/
def ellipsePosCbExpr : Expr :=
  .pair (.sub (.ref .instVar "center_x") (.lit (.num 20)))
        (.sub (.ref .instVar "center_y") (.lit (.num 20)))

def testBindingUnit : CompiledUnit :=
  { name := "TestBinding"
    stmts :=
      [ .construct (.widget "_canvas_ellipse_81F886DC") "Ellipse"
          [("size", .lit (.tup2 (.num 40.0) (.num 40.0)))]
      , .canvasAdd .main (.widget "_canvas_ellipse_81F886DC")
      , .assign (.widget "_canvas_ellipse_81F886DC") "pos" ellipsePosExpr
      , .bind .selfW "center_x"
          (.lam 1 (.widget "_canvas_ellipse_81F886DC") "pos" (.exprArg ellipsePosCbExpr))
      , .bind .selfW "center_y"
          (.lam 2 (.widget "_canvas_ellipse_81F886DC") "pos" (.exprArg ellipsePosCbExpr))
      , .appendB .selfW "center_x" 1
      , .appendB .selfW "center_y" 2 ] }

/-- MyCanvasWidget from KvToPyClass/test_canvas.py. -/
def myCanvasUnit : CompiledUnit :=
  { name := "MyCanvasWidget"
    stmts :=
      [ .canvasAddAnon .before "Color"
          [("rgba", .lit (.tup4 (.num 0.2) (.num 0.2) (.num 0.2) (.num 1.0)))]
      , .construct (.widget "_canvas_rectangle_504605F6") "Rectangle" []
      , .canvasAdd .before (.widget "_canvas_rectangle_504605F6")
      , .assign (.widget "_canvas_rectangle_504605F6") "pos" (.ref .selfW "pos")
      , .bind .selfW "pos" (.lam 1 (.widget "_canvas_rectangle_504605F6") "pos" .valueArg)
      , .assign (.widget "_canvas_rectangle_504605F6") "size" (.ref .selfW "size")
      , .bind .selfW "size" (.lam 2 (.widget "_canvas_rectangle_504605F6") "size" .valueArg)
      , .canvasAddAnon .main "Color" [("rgb", .lit (.tup3 (.num 1.0) (.num 0.0) (.num 0.0)))]
      , .construct (.widget "_canvas_ellipse_916FF6CA") "Ellipse"
          [("size", .lit (.tup2 (.num 100.0) (.num 100.0)))]
      , .canvasAdd .main (.widget "_canvas_ellipse_916FF6CA")
      , .assign (.widget "_canvas_ellipse_916FF6CA") "pos"
          (.pair (.add (.ref .selfW "x") (.lit (.num 50)))
                 (.add (.ref .selfW "y") (.lit (.num 50))))
      , .bind .selfW "x"
          (.lam 3 (.widget "_canvas_ellipse_916FF6CA") "pos"
            (.exprArg (.pair (.add (.ref .instVar "x") (.lit (.num 50)))
                             (.add (.ref .instVar "y") (.lit (.num 50))))))
      , .bind .selfW "y"
          (.lam 4 (.widget "_canvas_ellipse_916FF6CA") "pos"
            (.exprArg (.pair (.add (.ref .instVar "x") (.lit (.num 50)))
                             (.add (.ref .instVar "y") (.lit (.num 50))))))
      , .canvasAddAnon .main "Color"
          [("rgba", .lit (.tup4 (.num 0.0) (.num 1.0) (.num 0.0) (.num 0.5)))]
      , .construct (.widget "_canvas_line_61118867") "Line" [("width", .lit (.num 2.0))]
      , .canvasAdd .main (.widget "_canvas_line_61118867")
      , .assign (.widget "_canvas_line_61118867") "points"
          (.quad (.ref .selfW "x") (.ref .selfW "y") (.ref .selfW "right") (.ref .selfW "top"))
      , .bind .selfW "x"
          (.lam 5 (.widget "_canvas_line_61118867") "points"
            (.exprArg (.quad (.ref .instVar "x") (.ref .instVar "y")
                             (.ref .instVar "right") (.ref .instVar "top"))))
      , .bind .selfW "y"
          (.lam 6 (.widget "_canvas_line_61118867") "points"
            (.exprArg (.quad (.ref .instVar "x") (.ref .instVar "y")
                             (.ref .instVar "right") (.ref .instVar "top"))))
      , .bind .selfW "right"
          (.lam 7 (.widget "_canvas_line_61118867") "points"
            (.exprArg (.quad (.ref .instVar "x") (.ref .instVar "y")
                             (.ref .instVar "right") (.ref .instVar "top"))))
      , .bind .selfW "top"
          (.lam 8 (.widget "_canvas_line_61118867") "points"
            (.exprArg (.quad (.ref .instVar "x") (.ref .instVar "y")
                             (.ref .instVar "right") (.ref .instVar "top"))))
      , .canvasPush .after
      , .construct (.widget "_canvas_rotate_C98B4A6C") "Rotate" [("angle", .lit (.num 45.0))]
      , .canvasAdd .after (.widget "_canvas_rotate_C98B4A6C")
      , .assign (.widget "_canvas_rotate_C98B4A6C") "origin" (.ref .selfW "center")
      , .bind .selfW "center" (.lam 9 (.widget "_canvas_rotate_C98B4A6C") "origin" .valueArg)
      , .canvasAddAnon .after "Color" [("rgb", .lit (.tup3 (.num 0.0) (.num 0.0) (.num 1.0)))]
      , .construct (.widget "_canvas_rectangle_FF8B70BE") "Rectangle"
          [("size", .lit (.tup2 (.num 50.0) (.num 50.0)))]
      , .canvasAdd .after (.widget "_canvas_rectangle_FF8B70BE")
      , .assign (.widget "_canvas_rectangle_FF8B70BE") "pos"
          (.pair (.sub (.ref .selfW "center_x") (.lit (.num 25)))
                 (.sub (.ref .selfW "center_y") (.lit (.num 25))))
      , .bind .selfW "center_x"
          (.lam 10 (.widget "_canvas_rectangle_FF8B70BE") "pos"
            (.exprArg (.pair (.sub (.ref .instVar "center_x") (.lit (.num 25)))
                             (.sub (.ref .instVar "center_y") (.lit (.num 25))))))
      , .bind .selfW "center_y"
          (.lam 11 (.widget "_canvas_rectangle_FF8B70BE") "pos"
            (.exprArg (.pair (.sub (.ref .instVar "center_x") (.lit (.num 25)))
                             (.sub (.ref .instVar "center_y") (.lit (.num 25))))))
      , .canvasPop .after
      , .appendB .selfW "pos" 1
      , .appendB .selfW "size" 2
      , .appendB .selfW "x" 3
      , .appendB .selfW "y" 4
      , .appendB .selfW "x" 5
      , .appendB .selfW "y" 6
      , .appendB .selfW "right" 7
      , .appendB .selfW "top" 8
      , .appendB .selfW "center" 9
      , .appendB .selfW "center_x" 10
      , .appendB .selfW "center_y" 11 ] }

/-- MyDrawingWidget from KvToPyClass/test_canvas.py.  The rgba callback
re-evaluates the hasattr fallback over the captured app variable. -/
def myDrawingUnit : CompiledUnit :=
  { name := "MyDrawingWidget"
    stmts :=
      [ .construct (.widget "_canvas_color_A29BE994") "Color" []
      , .canvasAdd .main (.widget "_canvas_color_A29BE994")
      , .assign (.widget "_canvas_color_A29BE994") "rgba"
          (.fallback .app "bg_color" (.tup4 (.num 1) (.num 1) (.num 1) (.num 1)))
      , .bind .app "bg_color"
          (.lam 1 (.widget "_canvas_color_A29BE994") "rgba"
            (.exprArg (.fallback .app "bg_color" (.tup4 (.num 1) (.num 1) (.num 1) (.num 1)))))
      , .construct (.widget "_canvas_rectangle_FDE5AC3C") "Rectangle" []
      , .canvasAdd .main (.widget "_canvas_rectangle_FDE5AC3C")
      , .assign (.widget "_canvas_rectangle_FDE5AC3C") "pos" (.ref .selfW "pos")
      , .bind .selfW "pos" (.lam 2 (.widget "_canvas_rectangle_FDE5AC3C") "pos" .valueArg)
      , .assign (.widget "_canvas_rectangle_FDE5AC3C") "size" (.ref .selfW "size")
      , .bind .selfW "size" (.lam 3 (.widget "_canvas_rectangle_FDE5AC3C") "size" .valueArg)
      , .canvasAddAnon .main "Color" [("rgb", .lit (.tup3 (.num 1.0) (.num 1.0) (.num 0.0)))]
      , .construct (.widget "_canvas_ellipse_5EEADB71") "Ellipse"
          [("size", .lit (.tup2 (.num 40.0) (.num 40.0)))]
      , .canvasAdd .main (.widget "_canvas_ellipse_5EEADB71")
      , .assign (.widget "_canvas_ellipse_5EEADB71") "pos" ellipsePosExpr
      , .bind .selfW "center_x"
          (.lam 4 (.widget "_canvas_ellipse_5EEADB71") "pos" (.exprArg ellipsePosCbExpr))
      , .bind .selfW "center_y"
          (.lam 5 (.widget "_canvas_ellipse_5EEADB71") "pos" (.exprArg ellipsePosCbExpr))
      , .appendB .app "bg_color" 1
      , .appendB .selfW "pos" 2
      , .appendB .selfW "size" 3
      , .appendB .selfW "center_x" 4
      , .appendB .selfW "center_y" 5 ] }

/-- ComplexWidget from KvToPyClass/test_complex_bindings.py. -/
def complexWidgetUnit : CompiledUnit :=
  { name := "ComplexWidget"
    stmts :=
      [ .assign .selfW "orientation" (.lit (.str "vertical"))
      , .construct (.widget "label_E601E7C3") "Label" [("font_size", .lit (.num 24.0))]
      , .assign (.widget "label_E601E7C3") "text" (.ref .app "title")
      , .bind .app "title" (.setter (.widget "label_E601E7C3") "text")
      , .addWidget .selfW (.widget "label_E601E7C3")
      , .construct (.widget "box_5736D8A4") "BoxLayout" []
      , .construct (.widget "button_66B05D98") "Button" [("text", .lit (.str "Save"))]
      , .bind (.widget "button_66B05D98") "on_press" (.handler (some 0) .selfW "save_data")
      , .addWidget (.widget "box_5736D8A4") (.widget "button_66B05D98")
      , .construct (.widget "button_54910EAA") "Button" [("text", .lit (.str "Load"))]
      , .bind (.widget "button_54910EAA") "on_press" (.handler (some 1) .selfW "load_data")
      , .addWidget (.widget "box_5736D8A4") (.widget "button_54910EAA")
      , .construct (.widget "button_573825D5") "Button" [("text", .lit (.str "Clear"))]
      , .bind (.widget "button_573825D5") "on_release" (.handler (some 2) .selfW "clear_all")
      , .addWidget (.widget "box_5736D8A4") (.widget "button_573825D5")
      , .addWidget .selfW (.widget "box_5736D8A4")
      , .construct (.widget "my_input") "TextInput" []
      , .assign (.widget "my_input") "text" (.ref .app "current_text")
      , .bind .app "current_text" (.setter (.widget "my_input") "text")
      , .setId "my_input" (.widget "my_input")
      , .bind (.widget "my_input") "on_text" (.handler (some 3) .selfW "on_text_changed")
      , .addWidget .selfW (.widget "my_input")
      , .appendB (.widget "button_66B05D98") "on_press" 0
      , .appendB (.widget "button_54910EAA") "on_press" 1
      , .appendB (.widget "button_573825D5") "on_release" 2
      , .appendB (.widget "my_input") "on_text" 3 ] }

/-- UserProfile from KvToPyClass/test_event_binding.py. -/
def userProfileUnit : CompiledUnit :=
  { name := "UserProfile"
    stmts :=
      [ .assign .selfW "orientation" (.lit (.str "vertical"))
      , .assign .selfW "spacing" (.lit (.num 10.0))
      , .assign .selfW "padding" (.lit (.num 20.0))
      , .construct (.widget "label_63CA62FF") "Label"
          [ ("text", .lit (.str "User Profile")), ("font_size", .lit (.num 24.0))
          , ("size_hint_y", .lit .noneV), ("height", .lit (.num 40.0)) ]
      , .addWidget .selfW (.widget "label_63CA62FF")
      , .construct (.widget "box_2C88C0FF") "BoxLayout"
          [("orientation", .lit (.str "horizontal")), ("spacing", .lit (.num 10.0))]
      , .construct (.widget "label_F9F01180") "Label"
          [("text", .lit (.str "Name:")), ("size_hint_x", .lit (.num 0.3))]
      , .addWidget (.widget "box_2C88C0FF") (.widget "label_F9F01180")
      , .construct (.widget "name_input") "TextInput" [("multiline", .lit (.boolV false))]
      , .setId "name_input" (.widget "name_input")
      , .addWidget (.widget "box_2C88C0FF") (.widget "name_input")
      , .addWidget .selfW (.widget "box_2C88C0FF")
      , .construct (.widget "box_4AA757E4") "BoxLayout"
          [("orientation", .lit (.str "horizontal")), ("spacing", .lit (.num 10.0))]
      , .construct (.widget "label_8BCAC544") "Label"
          [("text", .lit (.str "Email:")), ("size_hint_x", .lit (.num 0.3))]
      , .addWidget (.widget "box_4AA757E4") (.widget "label_8BCAC544")
      , .construct (.widget "email_input") "TextInput" [("multiline", .lit (.boolV false))]
      , .setId "email_input" (.widget "email_input")
      , .addWidget (.widget "box_4AA757E4") (.widget "email_input")
      , .addWidget .selfW (.widget "box_4AA757E4")
      , .construct (.widget "mybutton_555FAFB4") "MyButton" [("text", .lit (.str "Save Profile"))]
      , .bind (.widget "mybutton_555FAFB4") "on_press" (.handler (some 0) .selfW "save_profile")
      , .addWidget .selfW (.widget "mybutton_555FAFB4")
      , .appendB (.widget "mybutton_555FAFB4") "on_press" 0 ] }

/-- All compiled units of the repository, i.e. every generated class that
has the full compiled-unit surface: constructor, _bindings list, __del__. -/
def allUnits : List CompiledUnit :=
  [ myWidgetUnit, testCanvasUnit, simpleCanvasUnit, testBindingUnit
  , myCanvasUnit, myDrawingUnit, complexWidgetUnit, userProfileUnit ]

/-- The token number a bind call records for later release: the number of
the generated _callback_n, when one is bound; setter handles carry none. -/
def Callback.tokenOf : Callback → Option Nat
  | .setter _ _ => none
  | .lam n _ _ _ => some n
  | .handler n _ _ => n

/-- The (target, property) a subscription callback writes to, when it is a
property-update callback rather than an event handler. -/
def Callback.targetOf : Callback → Option (Owner × String)
  | .setter t p => some (t, p)
  | .lam _ t p _ => some (t, p)
  | .handler _ _ _ => none

/-- All bind (subscribe) calls of a constructor, in order. -/
def CompiledUnit.binds (u : CompiledUnit) : List (Owner × String × Callback) :=
  u.stmts.filterMap fun s =>
    match s with
    | .bind o p cb => some (o, p, cb)
    | _ => none

/-- The number of subscribe calls the constructor emits. -/
def CompiledUnit.bindCount (u : CompiledUnit) : Nat :=
  u.binds.length

/-- The (owner, property, token) records appended to self._bindings, in
order; these are exactly the records the generated teardown visits. -/
def CompiledUnit.records (u : CompiledUnit) : List (Owner × String × Nat) :=
  u.stmts.filterMap fun s =>
    match s with
    | .appendB o p n => some (o, p, n)
    | _ => none

/-- The (owner, property, token) triples of the bind calls that register a
generated numbered callback (setter-handle binds carry no token). -/
def CompiledUnit.tokenBinds (u : CompiledUnit) : List (Owner × String × Nat) :=
  u.stmts.filterMap fun s =>
    match s with
    | .bind o p cb => (cb.tokenOf).map fun n => (o, p, n)
    | _ => none

/-- Look up the callback registered under token number n. -/
def CompiledUnit.callbackOfToken (u : CompiledUnit) (n : Nat) : Option Callback :=
  u.stmts.findSome? fun s =>
    match s with
    | .bind _ _ cb => if cb.tokenOf = some n then some cb else none
    | _ => none

/-- A subscription record as stored in self._bindings. -/
abbrev BRec := Owner × String × Nat

/-- Outcome of running the generated __del__ body: the release attempts
made in order, the warnings surfaced, and an exception escaping the
routine if any. -/
structure DelOutcome where
  attempts : List BRec
  warnings : List String
  uncaught : Option String
deriving DecidableEq

/-- One unbind call; fails gives the records whose release raises at
runtime (e.g. a stale handle). -/
def tryUnbind (fails : BRec → Bool) (r : BRec) : Except String Bool :=
  if fails r then Except.error "unbind raised" else Except.ok true

/-- One pass of the generated teardown loop
for (obj, prop, callback) in self._bindings: try: obj.unbind(...) except: pass.
Each unbind is guarded by a bare except whose body is pass, so a failing
release is swallowed, no warning is emitted, and iteration continues. -/
def delPass (fails : BRec → Bool) : List BRec → DelOutcome
  | [] => { attempts := [], warnings := [], uncaught := none }
  | r :: rs =>
      let handled : List String :=
        match tryUnbind fails r with
        | Except.error _ => []
        | Except.ok _ => []
      let rest := delPass fails rs
      { attempts := r :: rest.attempts
        warnings := handled ++ rest.warnings
        uncaught := rest.uncaught }

/-- Two successive invocations of __del__.  The generated loop never
mutates self._bindings, so the second invocation sees the same record
list; it runs only if the first invocation did not raise. -/
def delTwice (fails : BRec → Bool) (rs : List BRec) : DelOutcome :=
  let first := delPass fails rs
  match first.uncaught with
  | some e => { attempts := first.attempts, warnings := first.warnings, uncaught := some e }
  | none =>
      let second := delPass fails rs
      { attempts := first.attempts ++ second.attempts
        warnings := first.warnings ++ second.warnings
        uncaught := second.uncaught }

/-- Runtime property store: the current value of each (owner, property). -/
abbrev Env := List ((Owner × String) × Value)

def envLookup : Env → Owner → String → Option Value
  | [], _, _ => none
  | (k, v) :: rest, o, p => if k = (o, p) then some v else envLookup rest o p

def vadd : Value → Value → Value
  | .num a, .num b => .num (a + b)
  | _, _ => .noneV

def vsub : Value → Value → Value
  | .num a, .num b => .num (a - b)
  | _, _ => .noneV

/-- Evaluate an expression against the current property values. -/
def eval (env : Env) : Expr → Value
  | .lit v => v
  | .ref o p => (envLookup env o p).getD .noneV
  | .add a b => vadd (eval env a) (eval env b)
  | .sub a b => vsub (eval env a) (eval env b)
  | .pair a b => .tup2 (eval env a) (eval env b)
  | .quad a b c d => .tup4 (eval env a) (eval env b) (eval env c) (eval env d)
  | .fallback o p dflt =>
      match envLookup env o p with
      | some v => v
      | none => dflt

/-- The value a generated callback assigns to its target property when the
subscription fires: instObj is the object bound to the instance parameter
and newVal the new value of the triggering property. -/
def fireValue (env : Env) (instObj newVal : Value) : Applied → Value
  | .exprArg e => eval env e
  | .valueArg => newVal
  | .instanceArg => instObj

/-- The reactive property assignments of a constructor: assignments whose
expression reads at least one (owner, property). -/
def CompiledUnit.reactiveAssigns (u : CompiledUnit) : List (Owner × String × Expr) :=
  u.stmts.filterMap fun s =>
    match s with
    | .assign t p e => if e.deps.isEmpty then none else some (t, p, e)
    | _ => none

/-- The (owner, property) dependencies subscribed for a given target
property, in bind order: the binds whose callback writes to (t, p). -/
def CompiledUnit.bindsTargeting (u : CompiledUnit) (t : Owner) (p : String) :
    List (Owner × String) :=
  u.stmts.filterMap fun s =>
    match s with
    | .bind o q cb => if cb.targetOf = some (t, p) then some (o, q) else none
    | _ => none

/-- The transform push/pop operations emitted into one instruction group,
in order (true = push, false = pop). -/
def CompiledUnit.pushPops (u : CompiledUnit) (g : Group) : List Bool :=
  u.stmts.filterMap fun s =>
    match s with
    | .canvasPush g2 => if g2 = g then some true else none
    | .canvasPop g2 => if g2 = g then some false else none
    | _ => none

/-- A push/pop sequence is balanced at depth d: no prefix pops below zero
and the sequence closes back to depth zero. -/
def balancedFrom : List Bool → Nat → Bool
  | [], d => d == 0
  | true :: rest, d => balancedFrom rest (d + 1)
  | false :: rest, d =>
      match d with
      | 0 => false
      | e + 1 => balancedFrom rest e

/-- The (kind, identifier) of every node constructed into a named variable
or attribute. -/
def CompiledUnit.constructedIds (u : CompiledUnit) : List (String × String) :=
  u.stmts.filterMap fun s =>
    match s with
    | .construct (.widget i) k _ => some (k, i)
    | _ => none

/-- The identifiers the tree author assigned explicitly (the nodes stored
into self.ids under their declared name). -/
def CompiledUnit.explicitIds (u : CompiledUnit) : List String :=
  u.stmts.filterMap fun s =>
    match s with
    | .setId n _ => some n
    | _ => none

/-- The (kind, identifier) pairs of nodes whose identifier was generated
by the compiler (no explicit id declared). -/
def CompiledUnit.generatedIds (u : CompiledUnit) : List (String × String) :=
  u.constructedIds.filter fun ki => decide (ki.2 ∉ u.explicitIds)

def isHexUpper (c : Char) : Bool :=
  c.isDigit || ('A' ≤ c && c ≤ 'F')

/-- An 8-character uppercase hexadecimal hash rendering. -/
def hash8 (l : List Char) : Bool :=
  l.length == 8 && l.all isHexUpper

/-- Strip an expected stem from the front of an identifier, giving the
remaining characters. -/
def stripStem : List Char → List Char → Option (List Char)
  | [], rest => some rest
  | c :: st, d :: rest => if c = d then stripStem st rest else none
  | _ :: _, [] => none

/-- A stem followed by an 8-hex-uppercase hash and nothing else. -/
def stemHash (stem : List Char) (id : String) : Bool :=
  match stripStem stem id.data with
  | some rest => hash8 rest
  | none => false

/-- The identifier shape the specification describes:
lowercase(kind) followed by an underscore and an 8-hex-uppercase hash,
with no additional prefix or suffix. -/
def specGenId (kind id : String) : Bool :=
  stemHash (kind.data.map Char.toLower ++ ['_']) id

/-- The kind token the generator actually uses as identifier stem:
lowercase(kind), except that BoxLayout nodes are stemmed box. -/
def kindToken (kind : String) : List Char :=
  if kind = "BoxLayout" then ['b', 'o', 'x'] else kind.data.map Char.toLower

/-- Identifier shape of generated widget-child nodes in the samples. -/
def widgetGenId (kind id : String) : Bool :=
  stemHash (kindToken kind ++ ['_']) id

/-- Identifier shape of generated canvas-instruction nodes in the samples:
the stem carries an additional _canvas_ prefix. -/
def canvasGenId (kind id : String) : Bool :=
  stemHash ("_canvas_".data ++ kind.data.map Char.toLower ++ ['_']) id

/-- No two distinct nodes of the compiled tree share an identifier. -/
def CompiledUnit.idsUnique (u : CompiledUnit) : Bool :=
  decide (u.constructedIds.map Prod.snd).Nodup

/-- Every initializer argument of every emitted construction is static:
its expression reads no (owner, property). -/
def CompiledUnit.ctorArgsStatic (u : CompiledUnit) : Bool :=
  u.stmts.all fun s =>
    match s with
    | .construct _ _ args => args.all fun pe => pe.2.deps.isEmpty
    | .canvasAddAnon _ _ args => args.all fun pe => pe.2.deps.isEmpty
    | _ => true

/-- Scanning the statements in order, every property subscription is
registered only after the immediate assignment to the same target
property has been emitted. -/
def assignBeforeBinds : List Stmt → List (Owner × String) → Bool
  | [], _ => true
  | .assign t p _ :: rest, seen => assignBeforeBinds rest ((t, p) :: seen)
  | .bind _ _ cb :: rest, seen =>
      (match cb.targetOf with
       | some tp => decide (tp ∈ seen)
       | none => true) && assignBeforeBinds rest seen
  | _ :: rest, seen => assignBeforeBinds rest seen

/-- A concrete runtime state for SimpleCanvas: the widget position is the
pair (5, 7). -/
def c3Env : Env := [((Owner.selfW, "pos"), Value.tup2 (.num 5) (.num 7))]

end KvGen

namespace Registry

/-- A class declaration as the extractor sees it: the class name, the
comma-separated base list captured between the parentheses of the class
header, and the property definitions found in the class body. -/
structure PyClass where
  name : String
  bases : List String
  props : List (String × String)
deriving DecidableEq

/-- Python str.strip: drop leading and trailing whitespace. -/
def pyStrip (s : String) : String :=
  String.mk (((s.data.dropWhile Char.isWhitespace).reverse.dropWhile
    Char.isWhitespace).reverse)

/-- The parent the extractor records, from extract_class_info: the captured
base text is stripped and, when it lists multiple bases, split on the comma
keeping only the first entry, stripped again. -/
def recordedParent (bases : List String) : String :=
  pyStrip (bases.headD "")

/-- WidgetInfo from extract_widget_info.py. -/
structure WidgetInfo where
  name : String
  parent : String
  properties : List (String × String)
deriving DecidableEq

/-- extract_class_info builds one WidgetInfo per class, recording only the
first listed base as the parent. -/
def extractInfo (c : PyClass) : WidgetInfo :=
  { name := c.name, parent := recordedParent c.bases, properties := c.props }

/-- Dictionary lookup over an association list (first match). -/
def alookup {α : Type} : List (String × α) → String → Option α
  | [], _ => none
  | (k, v) :: rest, n => if k = n then some v else alookup rest n

/-- The widget map built by process_uix_directory. -/
abbrev WMap := List (String × WidgetInfo)

/-- The keys of the widget map not yet in the visited set: the measure
that shrinks at every recursive expansion of get_parents. -/
def keysNotVisited (widgets : WMap) (visited : List String) : List String :=
  (widgets.map Prod.fst).filter fun k => decide (k ∉ visited)

/-- get_parents from build_inheritance_hierarchy, with an explicit
recursion budget: a name already visited or absent from the map expands to
the empty list, otherwise the recorded parent is prepended and expanded
with the name added to the visited set.  The budget only limits recursion
depth; gpF_fuel_indifferent proves any budget above the number of
unvisited keys yields the same result, which is the termination argument
for the unbounded Python recursion. -/
def get_parentsF (widgets : WMap) : Nat → String → List String → List String
  | 0, _, _ => []
  | fuel + 1, name, visited =>
      if name ∈ visited then []
      else
        match alookup widgets name with
        | none => []
        | some w => w.parent :: get_parentsF widgets fuel w.parent (name :: visited)

/-- get_parents with a budget that always suffices. -/
def get_parents (widgets : WMap) (name : String) (visited : List String) : List String :=
  get_parentsF widgets ((keysNotVisited widgets visited).length + 1) name visited

/-- build_inheritance_hierarchy: widget name to the list of all recorded
ancestors. -/
def build_inheritance_hierarchy (widgets : WMap) : List (String × List String) :=
  widgets.map fun kv => (kv.1, get_parents widgets kv.1 [])

/-- Python dict.update: entries of e override entries of d, remaining
entries of d are kept. -/
def updateD (d e : List (String × String)) : List (String × String) :=
  (d.filter fun kv => (alookup e kv.1).isNone) ++ e

/-- Whether a properties dictionary has an entry under key k. -/
def hasKey (d : List (String × String)) (k : String) : Bool :=
  (alookup d k).isSome

/-- get_all_properties from extract_widget_info.py: fold the properties of
the recorded ancestors (in reverse hierarchy order, so nearer ancestors
override), then overlay the widget's own properties. -/
def get_all_properties (widget_name : String) (widgets : WMap)
    (hierarchy : List (String × List String)) : List (String × String) :=
  let fromParents :=
    match alookup hierarchy widget_name with
    | none => []
    | some parents =>
        parents.reverse.foldl
          (fun acc p =>
            match alookup widgets p with
            | none => acc
            | some w => updateD acc w.properties)
          []
  match alookup widgets widget_name with
  | none => fromParents
  | some w => updateD fromParents w.properties

/-- The property key k is contributed by the map entry named p. -/
def contributes (widgets : WMap) (p : String) (k : String) : Bool :=
  match alookup widgets p with
  | none => false
  | some w => hasKey w.properties k

/-- A class hierarchy with a declaration cycle: A extends B and B extends
A.  Feeding it to the extractor model exercises the visited-set guard. -/
def cycleWidgets : WMap :=
  [ ("A", { name := "A", parent := "B", properties := [("alpha", "NumericProperty")] })
  , ("B", { name := "B", parent := "A", properties := [("beta", "StringProperty")] }) ]

/-- The multiple-inheritance scenario for C9: class C(A, B) with its bases
captured as the text A and one comma-continuation B; A and B are
single-base classes whose parents are unknown to the map. -/
def classC : PyClass :=
  { name := "C", bases := ["A", " B"], props := [] }

def exampleWidgets : WMap :=
  [ ("C", extractInfo classC)
  , ("A", { name := "A", parent := "WidgetBase1", properties := [("alpha", "NumericProperty")] })
  , ("B", { name := "B", parent := "WidgetBase2", properties := [("beta", "StringProperty")] }) ]

def exampleHierarchy : List (String × List String) :=
  build_inheritance_hierarchy exampleWidgets

end Registry

namespace KvGen

/-- Running the teardown loop once attempts the release of exactly the
recorded subscriptions in order, surfaces no warning, and lets no
exception escape, whatever set of releases fails at runtime. -/
theorem delPass_eq (fails : BRec → Bool) (rs : List BRec) :
    delPass fails rs = { attempts := rs, warnings := [], uncaught := none } := by
  induction rs with
  | nil => rfl
  | cons r rest ih =>
      cases h : tryUnbind fails r <;> simp [delPass, h, ih]

/-- C1: claimed symmetry fails on the code: the MyWidget constructor of
test_binding.py emits two subscribe calls (the setter bind on
app.some_prop and the on_press handler bind) but appends a single record
to self._bindings, so the teardown releases fewer subscriptions than were
made. -/
theorem C1_counterexample :
    ¬ (myWidgetUnit.bindCount = myWidgetUnit.records.length) := by decide

/-- C1 (amended): in every compiled unit, the bind calls that register a
generated numbered callback correspond one-to-one and in order to the
records appended to self._bindings (same owner, property and token), and
one teardown pass visits exactly those records once each; setter-handle
binds are never recorded. -/
theorem C1_amended_bind_record_symmetry :
    (allUnits.all fun u => decide (u.tokenBinds = u.records)) = true ∧
    (∀ (fails : BRec → Bool) (u : CompiledUnit),
      (delPass fails u.records).attempts = u.records) := by
  refine ⟨by decide, ?_⟩
  intro fails u
  simp [delPass_eq]

/-- C2: the claim fails on the code: the generated __del__ does not clear
self._bindings, so a second invocation re-attempts every recorded release;
on SimpleCanvas the token (self, pos, _callback_1) is attempted twice. -/
theorem C2_counterexample :
    (delTwice (fun _ => false) simpleCanvasUnit.records).attempts.count
      (Owner.selfW, "pos", 1) = 2 := by decide

/-- C2 (amended): invoking the generated teardown twice never raises (each
unbind is guarded by a bare except), but the record list is not cleared,
so the second invocation re-attempts the release of every recorded token;
the repeated attempts are swallowed rather than avoided. -/
theorem C2_amended_teardown_reinvocation :
    ∀ (fails : BRec → Bool) (rs : List BRec),
      (delTwice fails rs).uncaught = none ∧
      (delTwice fails rs).warnings = [] ∧
      (delTwice fails rs).attempts = rs ++ rs := by
  intro fails rs
  simp [delTwice, delPass_eq]

/-- C3: the code contradicts the claim (and the design text, which calls
this pattern a latent defect): in test_simple_canvas.py the per-dependency
callback for (self, pos) passes the instance parameter itself to setattr
instead of re-evaluating the expression self.pos; in a state where
self.pos = (5, 7) the callback stores the widget object, not (5, 7). -/
theorem C3_callback_applies_instance :
    simpleCanvasUnit.reactiveAssigns =
      [ (.widget "_canvas_rectangle_00A310AD", "pos", .ref .selfW "pos")
      , (.widget "_canvas_rectangle_00A310AD", "size", .ref .selfW "size") ] ∧
    simpleCanvasUnit.callbackOfToken 1 =
      some (.lam 1 (.widget "_canvas_rectangle_00A310AD") "pos" .instanceArg) ∧
    fireValue c3Env (.obj "simpleCanvasObj") (.tup2 (.num 5) (.num 7)) .instanceArg =
      .obj "simpleCanvasObj" ∧
    eval c3Env (.ref .selfW "pos") = .tup2 (.num 5) (.num 7) ∧
    Value.obj "simpleCanvasObj" ≠ .tup2 (.num 5) (.num 7) := by
  refine ⟨by decide, by decide, rfl, by decide, by decide⟩

/-- C4: every reactive assignment in every compiled unit registers exactly
one subscription per dependency of its expression, in dependency order;
and the geometry-derived ellipse position of test_binding_ellipse.py
subscribes exactly (self, center_x) and (self, center_y), each callback
re-emitting the full position expression with self replaced by the
triggering instance. -/
theorem C4_reactive_dependency_counts :
    (allUnits.all fun u =>
        u.reactiveAssigns.all fun tpe =>
          decide (u.bindsTargeting tpe.1 tpe.2.1 = tpe.2.2.deps)) = true ∧
    ellipsePosExpr.deps = [(.selfW, "center_x"), (.selfW, "center_y")] ∧
    testBindingUnit.bindsTargeting (.widget "_canvas_ellipse_81F886DC") "pos" =
      [(.selfW, "center_x"), (.selfW, "center_y")] ∧
    testBindingUnit.callbackOfToken 1 =
      some (.lam 1 (.widget "_canvas_ellipse_81F886DC") "pos"
        (.exprArg ellipsePosExpr.substSelfToInst)) ∧
    testBindingUnit.callbackOfToken 2 =
      some (.lam 2 (.widget "_canvas_ellipse_81F886DC") "pos"
        (.exprArg ellipsePosExpr.substSelfToInst)) := by
  refine ⟨by decide, by decide, by decide, by decide, by decide⟩

/-- C5: the claim fails on the code: release failures are isolated but no
aggregate warning is surfaced; running the teardown over the MyWidget
records with every unbind failing produces an empty warning list even
though the record list is nonempty and every release failed. -/
theorem C5_counterexample :
    myWidgetUnit.records ≠ [] ∧
    (delPass (fun _ => true) myWidgetUnit.records).warnings = [] := by
  refine ⟨by decide, by simp [delPass_eq]⟩

/-- C5 (amended): during the generated teardown the failure of a single
unsubscribe never aborts the release of the remaining subscriptions (all
records are still attempted, in order) and never propagates as a runtime
error, but no warning of any kind is surfaced: failures are silently
discarded by the bare except handler. -/
theorem C5_amended_isolated_but_silent :
    ∀ (fails : BRec → Bool) (rs : List BRec),
      (delPass fails rs).attempts = rs ∧
      (delPass fails rs).uncaught = none ∧
      (delPass fails rs).warnings = [] := by
  intro fails rs
  simp [delPass_eq]

/-- C6: in every compiled unit and every instruction group, the emitted
transform pushes and pops balance: no prefix of the group sequence pops
below depth zero and each group closes at depth zero, so unmatched pushes
never cross a group boundary; the canvas.after group of MyCanvasWidget is
the one nonempty case, a single matched PushMatrix/PopMatrix pair. -/
theorem C6_transform_balance :
    (allUnits.all fun u =>
        [Group.before, Group.main, Group.after].all fun g =>
          balancedFrom (u.pushPops g) 0) = true ∧
    myCanvasUnit.pushPops .after = [true, false] := by
  refine ⟨by decide, by decide⟩

/-- C7: the claim fails on the code: the Rectangle node of
MyCanvasWidget carries no explicit identifier, yet its generated
identifier _canvas_rectangle_504605F6 is not of the claimed shape
lowercase(kind) underscore hash, because it carries the extra _canvas_
prefix. -/
theorem C7_counterexample :
    ("Rectangle", "_canvas_rectangle_504605F6") ∈ myCanvasUnit.constructedIds ∧
    "_canvas_rectangle_504605F6" ∉ myCanvasUnit.explicitIds ∧
    specGenId "Rectangle" "_canvas_rectangle_504605F6" = false := by
  refine ⟨by decide, by decide, by decide⟩

/-- C7 (amended): every generated identifier in the samples is a lowercase
kind stem (lowercase(kind), with BoxLayout shortened to box), prefixed by
_canvas_ for canvas-instruction nodes, followed by an underscore and an
8-character uppercase hexadecimal hash; widget children such as
label_7145D272 match the claimed shape exactly, and no two distinct nodes
of any compiled tree receive the same identifier. -/
theorem C7_amended_identifier_shape :
    (allUnits.all fun u =>
        u.generatedIds.all (fun ki => widgetGenId ki.1 ki.2 || canvasGenId ki.1 ki.2) &&
        u.idsUnique) = true ∧
    specGenId "Label" "label_7145D272" = true := by
  refine ⟨by decide, by decide⟩

/-- C8: in every compiled unit every construction passes only static
arguments (expressions reading no property), and every property
subscription is registered only after the immediate assignment to its
target property has been emitted. -/
theorem C8_static_ctor_reactive_after :
    (allUnits.all fun u => u.ctorArgsStatic && assignBeforeBinds u.stmts []) = true := by
  decide

end KvGen

namespace Registry

theorem alookup_append {α : Type} (l1 l2 : List (String × α)) (k : String) :
    alookup (l1 ++ l2) k =
      match alookup l1 k with
      | some v => some v
      | none => alookup l2 k := by
  induction l1 with
  | nil => simp [alookup]
  | cons hd t ih =>
      obtain ⟨a, v⟩ := hd
      by_cases hk : a = k
      · simp [alookup, hk]
      · simp [alookup, hk, ih]

theorem hasKey_append (l1 l2 : List (String × String)) (k : String) :
    hasKey (l1 ++ l2) k = (hasKey l1 k || hasKey l2 k) := by
  unfold hasKey
  rw [alookup_append]
  cases alookup l1 k <;> simp

theorem hasKey_filter_key (d : List (String × String)) (p : String → Bool) (k : String) :
    hasKey (d.filter fun kv => p kv.1) k = (hasKey d k && p k) := by
  induction d with
  | nil => simp [hasKey, alookup]
  | cons hd t ih =>
      obtain ⟨a, v⟩ := hd
      by_cases hak : a = k
      · subst hak
        cases hpa : p a
        · simp only [List.filter_cons, hpa, Bool.false_eq_true, if_false]
          rw [ih, hpa]
          simp
        · simp only [List.filter_cons, hpa, if_true]
          simp [hasKey, alookup]
      · cases hpa : p a <;>
          simpa [List.filter_cons, hpa, hasKey, alookup, hak] using ih

theorem hasKey_updateD (d e : List (String × String)) (k : String) :
    hasKey (updateD d e) k = (hasKey d k || hasKey e k) := by
  unfold updateD
  rw [hasKey_append, hasKey_filter_key d (fun x => (alookup e x).isNone) k]
  unfold hasKey
  cases alookup e k <;> simp

theorem hasKey_foldl (widgets : WMap) (parents : List String)
    (acc : List (String × String)) (k : String) :
    hasKey (parents.foldl
      (fun acc p =>
        match alookup widgets p with
        | none => acc
        | some w => updateD acc w.properties) acc) k
      = (hasKey acc k || parents.any fun p => contributes widgets p k) := by
  induction parents generalizing acc with
  | nil => simp
  | cons p rest ih =>
      cases h : alookup widgets p with
      | none => simp [h, ih, contributes]
      | some w => simp [h, ih, hasKey_updateD, contributes, Bool.or_assoc]

theorem alookup_mem {α : Type} (l : List (String × α)) (n : String) (v : α)
    (h : alookup l n = some v) : n ∈ l.map Prod.fst := by
  induction l with
  | nil => simp [alookup] at h
  | cons hd t ih =>
      obtain ⟨a, w⟩ := hd
      by_cases hak : a = n
      · simp [hak]
      · rw [alookup] at h
        simp only [hak, if_false] at h
        exact List.mem_cons_of_mem _ (ih h)

theorem alookup_map_fst {α β : Type} (l : List (String × α)) (f : String → β)
    (n : String) (b : β)
    (h : alookup (l.map fun kv => (kv.1, f kv.1)) n = some b) : b = f n := by
  induction l with
  | nil => simp [alookup] at h
  | cons hd t ih =>
      by_cases hak : hd.1 = n
      · simp only [List.map_cons, alookup, hak, if_true] at h
        exact (Option.some_inj.mp h).symm
      · simp only [List.map_cons, alookup, hak, if_false] at h
        exact ih h

theorem length_filter_mono {α : Type} (l : List α) (p q : α → Bool)
    (hpq : ∀ a, p a = true → q a = true) :
    (l.filter p).length ≤ (l.filter q).length := by
  induction l with
  | nil => simp
  | cons a t ih =>
      cases hp : p a
      · cases hq : q a
        · simpa [List.filter_cons, hp, hq] using ih
        · simp only [List.filter_cons, hp, hq, if_true, if_false, cond_true, cond_false]
          exact Nat.le_succ_of_le ih
      · have hq := hpq a hp
        simp only [List.filter_cons, hp, hq, cond_true]
        exact Nat.succ_le_succ ih

theorem length_filter_lt {α : Type} (l : List α) (p q : α → Bool)
    (hpq : ∀ x, p x = true → q x = true) (a : α) (ha : a ∈ l)
    (hq : q a = true) (hp : p a = false) :
    (l.filter p).length < (l.filter q).length := by
  induction l with
  | nil => simp at ha
  | cons x t ih =>
      rcases List.mem_cons.mp ha with rfl | hat
      · simp only [List.filter_cons, hp, hq, cond_true, cond_false]
        exact Nat.lt_succ_of_le (length_filter_mono t p q hpq)
      · cases hpx : p x
        · cases hqx : q x
          · simpa [List.filter_cons, hpx, hqx] using ih hat
          · simp only [List.filter_cons, hpx, hqx, cond_true, cond_false]
            exact Nat.lt_succ_of_lt (ih hat)
        · have hqx := hpq x hpx
          simp only [List.filter_cons, hpx, hqx, cond_true]
          exact Nat.succ_lt_succ (ih hat)

/-- Expanding one unvisited known name strictly shrinks the set of
unvisited keys: the termination measure of get_parents. -/
theorem keysNotVisited_cons_lt (widgets : WMap) (visited : List String) (name : String)
    (hnv : name ∉ visited) (hmem : name ∈ widgets.map Prod.fst) :
    (keysNotVisited widgets (name :: visited)).length <
      (keysNotVisited widgets visited).length := by
  unfold keysNotVisited
  refine length_filter_lt _ _ _ ?_ name hmem ?_ ?_
  · intro x hx
    rw [decide_eq_true_eq] at hx
    rw [decide_eq_true_eq]
    intro hxv
    exact hx (List.mem_cons_of_mem _ hxv)
  · rw [decide_eq_true_eq]
    exact hnv
  · rw [decide_eq_false_iff_not]
    intro hcon
    exact hcon (List.mem_cons_self _ _)

/-- Fuel indifference: any recursion budget above the number of unvisited
keys computes the same parent list, so the unbounded recursion of the
Python get_parents terminates with that value. -/
theorem gpF_fuel_indifferent (widgets : WMap) :
    ∀ (f g : Nat) (name : String) (visited : List String),
      (keysNotVisited widgets visited).length < f →
      (keysNotVisited widgets visited).length < g →
      get_parentsF widgets f name visited = get_parentsF widgets g name visited := by
  intro f
  induction f with
  | zero =>
      intro g name visited hf hg
      omega
  | succ f ih =>
      intro g name visited hf hg
      cases g with
      | zero => omega
      | succ g =>
          by_cases hv : name ∈ visited
          · simp [get_parentsF, hv]
          · cases hw : alookup widgets name with
            | none => simp [get_parentsF, hv, hw]
            | some w =>
                simp only [get_parentsF, hv, if_false, hw, List.cons.injEq, true_and,
                  ite_false]
                have hlt := keysNotVisited_cons_lt widgets visited name hv
                  (alookup_mem _ _ _ hw)
                exact ih g w.parent (name :: visited) (by omega) (by omega)

/-- Each name is expanded at most once per top-level call: the parent list
never exceeds the number of unvisited keys. -/
theorem gpF_length_le (widgets : WMap) :
    ∀ (f : Nat) (name : String) (visited : List String),
      (get_parentsF widgets f name visited).length ≤
        (keysNotVisited widgets visited).length := by
  intro f
  induction f with
  | zero =>
      intro name visited
      simp [get_parentsF]
  | succ f ih =>
      intro name visited
      by_cases hv : name ∈ visited
      · simp [get_parentsF, hv]
      · cases hw : alookup widgets name with
        | none => simp [get_parentsF, hv, hw]
        | some w =>
            simp only [get_parentsF, hv, if_false, hw, List.length_cons, ite_false]
            have hlt := keysNotVisited_cons_lt widgets visited name hv
              (alookup_mem _ _ _ hw)
            have := ih w.parent (name :: visited)
            omega

/-- C9: the extractor records only the first listed base as a parent, and
every key returned by the flattened lookup get_all_properties comes from
the widget itself or from a member of its recorded first-parent chain;
in the concrete scenario class C(A, B), where only B declares beta, the
recorded parent of C is A, the chain is A then its recorded ancestor, and
the flattened properties of C contain alpha from A but never beta. -/
theorem C9_first_parent_only :
    (∀ (widgets : WMap) (name k : String),
        hasKey (get_all_properties name widgets (build_inheritance_hierarchy widgets)) k
          = true →
        contributes widgets name k = true ∨
          ∃ p, p ∈ get_parents widgets name [] ∧ contributes widgets p k = true) ∧
    (extractInfo classC).parent = "A" ∧
    get_parents exampleWidgets "C" [] = ["A", "WidgetBase1"] ∧
    hasKey (get_all_properties "C" exampleWidgets exampleHierarchy) "beta" = false ∧
    hasKey (get_all_properties "C" exampleWidgets exampleHierarchy) "alpha" = true := by
  refine ⟨?_, by decide, by decide, by decide, by decide⟩
  intro widgets name k h
  unfold get_all_properties at h
  cases hh : alookup (build_inheritance_hierarchy widgets) name with
  | none =>
      rw [hh] at h
      cases hw : alookup widgets name with
      | none =>
          rw [hw] at h
          simp [hasKey, alookup] at h
      | some w =>
          rw [hw, hasKey_updateD] at h
          simp only [hasKey, alookup, Option.isSome_none, Bool.false_or] at h
          left
          unfold contributes
          rw [hw]
          exact h
  | some parents =>
      have hps : parents = get_parents widgets name [] :=
        alookup_map_fst widgets (fun n => get_parents widgets n []) name parents hh
      rw [hh] at h
      have key : hasKey (parents.reverse.foldl
          (fun acc p =>
            match alookup widgets p with
            | none => acc
            | some w => updateD acc w.properties) []) k = true →
          ∃ p, p ∈ get_parents widgets name [] ∧ contributes widgets p k = true := by
        intro hf
        rw [hasKey_foldl] at hf
        simp only [hasKey, alookup, Option.isSome_none, Bool.false_or,
          List.any_eq_true] at hf
        obtain ⟨p, hpmem, hpc⟩ := hf
        exact ⟨p, hps ▸ List.mem_reverse.mp hpmem, hpc⟩
      cases hw : alookup widgets name with
      | none =>
          rw [hw] at h
          exact Or.inr (key h)
      | some w =>
          rw [hw, hasKey_updateD, Bool.or_eq_true] at h
          rcases h with h | h
          · exact Or.inr (key h)
          · left
            unfold contributes
            rw [hw]
            exact h

/-- Witness for C9: the general conjunct applied to the concrete C(A, B)
scenario at the inherited key alpha. -/
theorem C9_witness :
    contributes exampleWidgets "C" "alpha" = true ∨
      ∃ p, p ∈ get_parents exampleWidgets "C" [] ∧
        contributes exampleWidgets p "alpha" = true :=
  C9_first_parent_only.1 exampleWidgets "C" "alpha" (by decide)

/-- C10: get_parents terminates on every finite widget map: any two
recursion budgets above the unvisited-key count give the same result, a
visited or unknown name expands to the empty list, a top-level call
expands each name at most once (the result never exceeds the number of
unvisited keys), and on the two-class declaration cycle A-B the whole
hierarchy is still computed. -/
theorem C10_get_parents_terminates :
    (∀ (widgets : WMap) (f g : Nat) (name : String) (visited : List String),
        (keysNotVisited widgets visited).length < f →
        (keysNotVisited widgets visited).length < g →
        get_parentsF widgets f name visited = get_parentsF widgets g name visited) ∧
    (∀ (widgets : WMap) (name : String) (visited : List String),
        name ∈ visited → get_parents widgets name visited = []) ∧
    (∀ (widgets : WMap) (name : String) (visited : List String),
        alookup widgets name = none → get_parents widgets name visited = []) ∧
    (∀ (widgets : WMap) (name : String) (visited : List String),
        (get_parents widgets name visited).length ≤
          (keysNotVisited widgets visited).length) ∧
    get_parents cycleWidgets "A" [] = ["B", "A"] ∧
    build_inheritance_hierarchy cycleWidgets = [("A", ["B", "A"]), ("B", ["A", "B"])] := by
  refine ⟨gpF_fuel_indifferent, ?_, ?_, ?_, by decide, by decide⟩
  · intro widgets name visited hv
    simp [get_parents, get_parentsF, hv]
  · intro widgets name visited hw
    by_cases hv : name ∈ visited
    · simp [get_parents, get_parentsF, hv]
    · simp [get_parents, get_parentsF, hv, hw]
  · intro widgets name visited
    exact gpF_length_le widgets _ name visited

/-- Witness for C10: the universal conjuncts applied to the cyclic
two-class map at concrete budgets, name and visited set. -/
theorem C10_witness :
    get_parentsF cycleWidgets 3 "A" [] = get_parentsF cycleWidgets 7 "A" [] ∧
    get_parents cycleWidgets "A" ["A"] = [] ∧
    get_parents cycleWidgets "Missing" [] = [] ∧
    (get_parents cycleWidgets "A" []).length ≤ (keysNotVisited cycleWidgets []).length :=
  ⟨C10_get_parents_terminates.1 cycleWidgets 3 7 "A" [] (by decide) (by decide),
   C10_get_parents_terminates.2.1 cycleWidgets "A" ["A"] (by decide),
   C10_get_parents_terminates.2.2.1 cycleWidgets "Missing" [] (by decide),
   C10_get_parents_terminates.2.2.2.1 cycleWidgets "A" []⟩

end Registry
